import Mathlib

/-!
Shallow embedding of the tabarena-cuml-poc benchmarking pipeline:
* `scripts/benchmark_timer.py` — `BenchmarkTimer` (stage timing scopes, export),
* `scripts/benchmark_db.py` — SQLite persistence with schema evolution,
* `scripts/benchmark_util.py` — environment-metadata collection,
* `scripts/show_results.py` — prefix lookup commands and the speedup query.

Python dicts are modelled as ordered association lists (`Dict`), SQLite cell
values as the scalar type `Val` (`vnull` stands for both Python `None` and
pandas `NaN`/SQL `NULL`).  Durations are exact: nanosecond counts are `Int`
(differences of monotonic-clock readings) and the derived ms/s figures are
rationals; IEEE-754 rounding of the Python floats is not modelled, no claim
below depends on it.  Clock reads, timestamps and every other environmental
input are passed as explicit parameters.
-/

namespace TabArena

/-- A scalar cell value as stored by the pipeline (SQLite / pandas cell). -/
inductive Val where
  | vnull
  | vbool (b : Bool)
  | vint (n : Int)
  | vrat (q : ℚ)
  | vstr (s : String)
deriving DecidableEq, Repr

/-- A Python dict with scalar values: an ordered association list. -/
abbrev Dict := List (String × Val)

/-- Reading a cell: a missing key is a null cell (pandas NaN / SQL NULL). -/
def cell (r : Dict) (k : String) : Val := (r.lookup k).getD Val.vnull

/-- Python dict `base.update(upd)` semantics: keys of `base` keep their
position and get the updated value, new keys of `upd` are appended in order. -/
def dictUpdate (base upd : Dict) : Dict :=
  base.map (fun kv => (kv.1, (upd.lookup kv.1).getD kv.2)) ++
    upd.filter (fun kv => (base.lookup kv.1).isNone)

/-- `_with_prefix` of benchmark_timer.py: add a prefix to all keys. -/
def addPrefix (p : String) (mapping : Dict) : Dict :=
  mapping.map (fun kv => (p ++ kv.1, kv.2))

/-- `Option String` to a cell (`None` becomes null). -/
def optStr : Option String → Val
  | some s => Val.vstr s
  | none => Val.vnull

/-- Model of `json.dumps` on a list of strings (escaping is not modelled;
none of the claims depends on the exact encoding of special characters). -/
def jsonListStr (xs : List String) : String :=
  "[" ++ String.intercalate ", " (xs.map (fun s => "\"" ++ s ++ "\"")) ++ "]"

/-- `_serialize_for_sqlite` of benchmark_timer.py: lists and dicts are dumped
to JSON strings; on the scalar values representable in `Val` it is the
identity (compound values are already serialized upstream in this model). -/
def serializeForSqlite (v : Val) : Val := v

/-- A Python exception, split by class as far as the code discriminates:
`os.getlogin` failures are caught only as `OSError`. -/
inductive PyErr where
  | osError (msg : String)
  | exception (msg : String)
deriving DecidableEq, Repr

/-- `str(e)` on a modelled exception. -/
def errMsg : PyErr → String
  | .osError m => m
  | .exception m => m

/-! ## BenchmarkTimer (scripts/benchmark_timer.py) -/

/-- The mutable state of a `BenchmarkTimer` instance. -/
structure BenchmarkTimer where
  experiment_name : String
  metadata : Dict
  run_id : String
  context : Dict
  timings : List Dict
  _start_time : Nat
deriving DecidableEq, Repr

/-- The flat dict appended by `BenchmarkTimer.time` on scope exit (the body of
the `finally:` block), with the `stage_metadata.` key prefix applied. -/
def timingRow (stage : String) (elapsed_ns : Int) (timestamp : String)
    (stage_metadata : Dict) : Dict :=
  [("stage", Val.vstr stage),
   ("time_ns", Val.vint elapsed_ns),
   ("time_ms", Val.vrat ((elapsed_ns : ℚ) / 1000000)),
   ("time_s", Val.vrat ((elapsed_ns : ℚ) / 1000000000)),
   ("timestamp", Val.vstr timestamp)] ++
    addPrefix "stage_metadata." stage_metadata

/-- `BenchmarkTimer.time`, the `@contextmanager` scope.  The snapshot
`stage_metadata = deepcopy(self.metadata); stage_metadata.update(metadata)`
is taken before the body runs, so it is computed from the entry-time timer;
the body is an arbitrary state transformer that may also raise (`Option
PyErr`); the `finally:` block appends exactly one record to whatever timings
list the body left behind, and the body's exception (if any) is re-raised.
`startNs`/`stopNs` are the two `perf_counter_ns()` readings. -/
def BenchmarkTimer.time (t : BenchmarkTimer) (stage : String)
    (metadata : Option Dict)
    (body : BenchmarkTimer → BenchmarkTimer × Option PyErr)
    (startNs stopNs : Nat) (timestamp : String) :
    BenchmarkTimer × Option PyErr :=
  let stage_metadata := dictUpdate t.metadata (metadata.getD [])
  let res := body t
  let elapsed_ns : Int := (stopNs : Int) - (startNs : Int)
  ({ res.1 with
      timings := res.1.timings ++ [timingRow stage elapsed_ns timestamp stage_metadata] },
   res.2)

/-- `BenchmarkTimer.record_total_time`: appends a synthetic record with stage
label "total" and elapsed time since construction (`nowNs` is the
`perf_counter_ns()` reading at the call). -/
def BenchmarkTimer.record_total_time (t : BenchmarkTimer) (nowNs : Nat)
    (timestamp : String) : BenchmarkTimer :=
  let total_ns : Int := (nowNs : Int) - (t._start_time : Int)
  { t with timings := t.timings ++ [timingRow "total" total_ns timestamp []] }

/-- The body of `to_df`'s per-row loop: a deep copy of the timing record
extended with run identity and the run-level context (dict-update
semantics), then serialized cell-wise. -/
def toDfRow (t : BenchmarkTimer) (row0 : Dict) : Dict :=
  (dictUpdate
      (dictUpdate (dictUpdate row0 [("experiment_name", Val.vstr t.experiment_name)])
        [("run_id", Val.vstr t.run_id)])
      t.context).map (fun kv => (kv.1, serializeForSqlite kv.2))

/-- `BenchmarkTimer.to_df`: one output row per timing record. -/
def BenchmarkTimer.to_df (t : BenchmarkTimer) : List Dict :=
  t.timings.map (toDfRow t)

/-- Method-call semantics of `to_df`: the method never assigns to `self` and
works on `deepcopy(self.timings)`, so the timer state after the call is the
timer state before it; the call returns the rows together with that state. -/
def BenchmarkTimer.to_df_call (t : BenchmarkTimer) : List Dict × BenchmarkTimer :=
  (t.to_df, t)

/-! ## SQLite store and pandas operations (scripts/benchmark_db.py) -/

/-- A pandas DataFrame: a column list and one association-list row per
record.  A key absent from a row is a NaN cell (`cell` returns `vnull`). -/
structure DataFrame where
  cols : List String
  rows : List Dict
deriving DecidableEq, Repr

/-- Left-to-right union of column names, first occurrence wins the position
(the order `pd.concat(..., sort=False)` and `pd.DataFrame(list-of-dicts)`
produce). -/
def unionCols (acc : List String) (ks : List String) : List String :=
  ks.foldl (fun a k => if a.contains k then a else a ++ [k]) acc

/-- `pd.DataFrame(list_of_dicts)`: the columns are the union of the rows'
keys in first-seen order. -/
def pdDataFrame (rows : List Dict) : DataFrame :=
  { cols := rows.foldl (fun acc r => unionCols acc (r.map Prod.fst)) [], rows := rows }

/-- `pd.concat([d1, d2], ignore_index=True, sort=False)`: outer union of the
columns, rows stacked; cells a row does not carry read as null. -/
def pdConcat (d1 d2 : DataFrame) : DataFrame :=
  { cols := unionCols d1.cols d2.cols, rows := d1.rows ++ d2.rows }

/-- Materialize one row against a table schema: the listed columns in order,
missing cells becoming SQL NULL. -/
def projRow (cols : List String) (r : Dict) : Dict :=
  cols.map (fun c => (c, cell r c))

/-- A SQLite table: its schema and its stored rows (normalized to the
schema). -/
structure Table where
  cols : List String
  rows : List Dict
deriving DecidableEq, Repr

/-- The tables of one SQLite database file. -/
abbrev Store := List (String × Table)

/-- One effect on the SQLite connection, in order: a successful
`df.to_sql(..., if_exists="append")`, a full-table `pd.read_sql`, a
`df.to_sql(..., if_exists="replace")`. -/
inductive DbEvent where
  | appendTo (table : String) (df : DataFrame)
  | readTable (table : String)
  | replaceTable (table : String) (df : DataFrame)
deriving DecidableEq, Repr

/-- The table an event touches. -/
def eventTable : DbEvent → String
  | .appendTo t _ => t
  | .readTable t => t
  | .replaceTable t _ => t

/-- A `sqlite3.Connection`: the database state plus the trace of effects
performed through it. -/
structure Conn where
  store : Store
  log : List DbEvent
deriving DecidableEq, Repr

/-- The exceptions the persistence code discriminates:
`sqlite3.OperationalError` (tested for its message) and the
`pandas.io.sql.DatabaseError` raised by `pd.read_sql` on a missing table. -/
inductive SqlError where
  | operationalError (msg : String)
  | databaseError (msg : String)
deriving DecidableEq, Repr

/-- Whether a substring occurs in a string (Python `"..." in str(error)`). -/
def strContains (s pat : String) : Bool := decide (pat.data <:+: s.data)

/-- The `except sqlite3.OperationalError` guard of the schema-evolution code:
the error is an OperationalError whose message contains "has no column". -/
def msgHasNoColumn : SqlError → Bool
  | .operationalError m => strContains m "has no column"
  | .databaseError _ => false

/-- Update one named table of a store in place. -/
def storeSet (s : Store) (name : String) (tbl : Table) : Store :=
  s.map (fun kv => if kv.1 == name then (name, tbl) else kv)

/-- `df.to_sql(table, conn, if_exists="append", index=False)`: creates the
table with the frame's columns when absent; otherwise inserts the frame's
rows, failing with `OperationalError("table ... has no column named c")`
when the frame uses a column the table schema lacks, and filling table
columns the frame lacks with NULL. -/
def sqliteAppend (df : DataFrame) (conn : Conn) (table : String) :
    Except SqlError Conn :=
  match conn.store.lookup table with
  | none =>
      let tbl : Table := { cols := df.cols, rows := df.rows.map (projRow df.cols) }
      .ok { store := conn.store ++ [(table, tbl)],
            log := conn.log ++ [DbEvent.appendTo table df] }
  | some tbl =>
      match df.cols.find? (fun c => !(tbl.cols.contains c)) with
      | some c =>
          .error (.operationalError
            ("table " ++ table ++ " has no column named " ++ c))
      | none =>
          let tbl2 : Table := { tbl with rows := tbl.rows ++ df.rows.map (projRow tbl.cols) }
          .ok { store := storeSet conn.store table tbl2,
                log := conn.log ++ [DbEvent.appendTo table df] }

/-- `df.to_sql(table, conn, if_exists="replace", index=False)`: drop the
table if it exists and recreate it from the frame. -/
def sqliteReplace (df : DataFrame) (conn : Conn) (table : String) : Conn :=
  let tbl : Table := { cols := df.cols, rows := df.rows.map (projRow df.cols) }
  let st :=
    if (conn.store.lookup table).isSome then storeSet conn.store table tbl
    else conn.store ++ [(table, tbl)]
  { store := st, log := conn.log ++ [DbEvent.replaceTable table df] }

/-- `pd.read_sql("SELECT * FROM t", conn)`: the whole table as a DataFrame,
or a `pandas.io.sql.DatabaseError` when it does not exist. -/
def pdReadSqlTable (conn : Conn) (table : String) :
    Except SqlError (DataFrame × Conn) :=
  match conn.store.lookup table with
  | none => .error (.databaseError ("no such table: " ++ table))
  | some tbl =>
      .ok ({ cols := tbl.cols, rows := tbl.rows },
           { conn with log := conn.log ++ [DbEvent.readTable table] })

/-- The `try/except sqlite3.OperationalError` structure shared by
`BenchmarkTimer.to_sql` and `_save_dataframe_with_schema_evolution`: a
failure whose message contains "has no column" runs the recovery, any other
failure re-raises. -/
def trySchemaEvolution (attempt : Except SqlError Conn)
    (recover : SqlError → Except SqlError Conn) : Except SqlError Conn :=
  match attempt with
  | .ok c => .ok c
  | .error e => if msgHasNoColumn e then recover e else .error e

/-- The schema-evolution recovery: read the whole existing table, concat
with the new frame (outer union of columns) and rewrite the table in
place. -/
def schemaEvolutionRecover (df : DataFrame) (conn : Conn) (table : String) :
    Except SqlError Conn :=
  match pdReadSqlTable conn table with
  | .error e2 => .error e2
  | .ok (df_existing, c1) => .ok (sqliteReplace (pdConcat df_existing df) c1 table)

/-- `_save_dataframe_with_schema_evolution` of benchmark_db.py. -/
def saveDataFrameWithSchemaEvolution (df : DataFrame) (conn : Conn)
    (table : String) : Except SqlError Conn :=
  if df.rows.length = 0 then .ok conn
  else
    trySchemaEvolution (sqliteAppend df conn table)
      (fun _ => schemaEvolutionRecover df conn table)

/-- `BenchmarkTimer.to_sql` of benchmark_timer.py; its body textually
duplicates the guard and try/except of
`_save_dataframe_with_schema_evolution`, applied to the frame `self.to_df()`
builds. -/
def BenchmarkTimer.to_sql (t : BenchmarkTimer) (conn : Conn) (table : String) :
    Except SqlError Conn :=
  saveDataFrameWithSchemaEvolution (pdDataFrame t.to_df) conn table

/-- The `run_summary` dict `save_experiment_results` builds: run identity,
serialized dataset list (`None` for an empty or missing list, by Python
truthiness), the serialized results payload (taken here already serialized),
the spread-in run context, and — when the timing frame has a row whose stage
is "total" — that first row's seconds and milliseconds; finally the cell-wise
serialization pass. -/
def mkRunSummary (timer : BenchmarkTimer) (results_json : String)
    (datasets : Option (List String)) : Dict :=
  let base := dictUpdate
    [("run_id", Val.vstr timer.run_id),
     ("experiment_name", Val.vstr timer.experiment_name),
     ("datasets",
       match datasets with
       | some (d :: ds) => Val.vstr (jsonListStr (d :: ds))
       | _ => Val.vnull),
     ("results_json", Val.vstr results_json)]
    timer.context
  let df_timings := pdDataFrame timer.to_df
  let base :=
    if df_timings.rows.isEmpty then base
    else
      let total_row :=
        df_timings.rows.filter (fun r => decide (cell r "stage" = Val.vstr "total"))
      match total_row.head? with
      | none => base
      | some r0 =>
          dictUpdate base
            [("total_time_s", cell r0 "time_s"), ("total_time_ms", cell r0 "time_ms")]
  base.map (fun kv => (kv.1, serializeForSqlite kv.2))

/-- `save_experiment_results` of benchmark_db.py: record the total time,
then within one connection append the timing batch to `benchmark_timings`
and the run-summary row to `benchmark_runs`, in that order. -/
def save_experiment_results (timer : BenchmarkTimer) (results_json : String)
    (datasets : Option (List String)) (conn : Conn)
    (nowNs : Nat) (timestamp : String) : Except SqlError Conn :=
  let timer := timer.record_total_time nowNs timestamp
  match timer.to_sql conn "benchmark_timings" with
  | .error e => .error e
  | .ok conn1 =>
      saveDataFrameWithSchemaEvolution
        (pdDataFrame [mkRunSummary timer results_json datasets]) conn1 "benchmark_runs"

/-- `load_benchmark_runs` of benchmark_db.py: read `benchmark_runs`,
optionally filtered by experiment name (Python truthiness: an empty string
disables the filter), returning an empty frame instead of raising when the
table does not exist. -/
def load_benchmark_runs (experiment_name : Option String) (conn : Conn) :
    DataFrame :=
  match pdReadSqlTable conn "benchmark_runs" with
  | .error _ => pdDataFrame []
  | .ok (df, _) =>
      match experiment_name with
      | some n =>
          if n = "" then df
          else { cols := df.cols,
                 rows := df.rows.filter (fun r => decide (cell r "experiment_name" = Val.vstr n)) }
      | none => df

/-! ## Environment metadata collection (scripts/benchmark_util.py)

The process environment is an explicit record of probe outcomes: each field
is the result of the corresponding Python call (`Except PyErr` where the call
can raise).  `platform.*`, `socket.gethostname` and `sys.*` reads are taken
as plain values; the `psutil` counters, the numba CUDA queries, the
`pip freeze` subprocess and the git query are fallible. -/

/-- What the numba CUDA probe returns when it succeeds. -/
structure CudaFacts where
  device_names : List String
  version : String
deriving DecidableEq, Repr

/-- What the `git.Repo` probe returns when it succeeds (`branch` is `None`
when the head is detached). -/
structure GitFacts where
  commit : String
  branch : Option String
  dirty : Bool
  working_dir : String
deriving DecidableEq, Repr

/-- The probe outcomes `benchmark_util.py` reads. -/
structure Env where
  getuser : Except PyErr String
  oslogin : Except PyErr String
  os_name : String
  os_release : String
  os_version : String
  architecture : String
  processor : String
  hostname : String
  cpu_count : Except PyErr Val
  cpu_count_physical : Except PyErr Val
  total_ram_bytes : Except PyErr Int
  available_ram_bytes : Except PyErr Int
  cudaProbe : Except PyErr CudaFacts
  python_version : String
  python_implementation : String
  python_executable : String
  pip_freeze : Except PyErr (Option String)
  gitProbe : Except PyErr GitFacts
  now_iso : String
  now_timestamp : ℚ
deriving Repr

/-- `get_system_info`: only the user lookup is guarded (`getpass.getuser`
under `except Exception`, then `os.getlogin` under `except OSError` — a
non-OSError from the fallback propagates); the platform, socket and psutil
probes that build the returned dict run unguarded, so a psutil failure
propagates to the caller. -/
def get_system_info (env : Env) : Except PyErr Dict := do
  let user : Option String ←
    match env.getuser with
    | .ok u => pure (some u)
    | .error _ =>
        match env.oslogin with
        | .ok u => pure (some u)
        | .error (.osError _) => pure none
        | .error e => throw e
  let cpu ← env.cpu_count
  let cpuPhys ← env.cpu_count_physical
  let ram ← env.total_ram_bytes
  let avail ← env.available_ram_bytes
  pure [("os", Val.vstr env.os_name),
        ("os_release", Val.vstr env.os_release),
        ("os_version", Val.vstr env.os_version),
        ("architecture", Val.vstr env.architecture),
        ("processor", Val.vstr env.processor),
        ("hostname", Val.vstr env.hostname),
        ("user", optStr user),
        ("cpu_count", cpu),
        ("cpu_count_physical", cpuPhys),
        ("total_ram_bytes", Val.vint ram),
        ("available_ram_bytes", Val.vint avail)]

/-- `get_cuda_info`: the whole body is under `try/except Exception`, the
failure branch substituting defaults plus a `cuda_error` message. -/
def get_cuda_info (env : Env) : Dict :=
  match env.cudaProbe with
  | .ok c =>
      [("cuda_available", Val.vbool true),
       ("cuda_device_count", Val.vint (c.device_names.length : Int)),
       ("cuda_device_names", Val.vstr (jsonListStr c.device_names)),
       ("cuda_version", Val.vstr c.version)]
  | .error e =>
      [("cuda_available", Val.vbool false),
       ("cuda_device_count", Val.vint 0),
       ("cuda_device_names", Val.vstr (jsonListStr [])),
       ("cuda_version", Val.vnull),
       ("cuda_error", Val.vstr (errMsg e))]

/-- `get_python_info`: the `pip freeze` subprocess is guarded (`except
Exception`) and a failure or nonzero exit yields `pip_freeze = None` — with
no error field; the version fields are plain reads. -/
def get_python_info (env : Env) : Dict :=
  let pip : Option String :=
    match env.pip_freeze with
    | .ok o => o
    | .error _ => none
  [("python_version", Val.vstr env.python_version),
   ("python_implementation", Val.vstr env.python_implementation),
   ("python_executable", Val.vstr env.python_executable),
   ("pip_freeze", optStr pip)]

/-- `get_git_info`: wholly guarded, the failure branch substituting `None`
for every field plus a `git_error` message. -/
def get_git_info (env : Env) : Dict :=
  match env.gitProbe with
  | .ok g =>
      [("git_commit", Val.vstr g.commit),
       ("git_branch", optStr g.branch),
       ("git_dirty", Val.vbool g.dirty),
       ("git_working_dir", Val.vstr g.working_dir)]
  | .error e =>
      [("git_commit", Val.vnull),
       ("git_branch", Val.vnull),
       ("git_dirty", Val.vnull),
       ("git_working_dir", Val.vnull),
       ("git_error", Val.vstr (errMsg e))]

/-- `collect_all_metadata`: execution timestamps, then the four
sub-collections under dotted prefixes, in source order.  It wraps nothing in
a handler itself, so an exception escaping `get_system_info` escapes the
whole collection. -/
def collect_all_metadata (env : Env) : Except PyErr Dict := do
  let sys ← get_system_info env
  pure ([("execution_datetime", Val.vstr env.now_iso),
         ("execution_timestamp", Val.vrat env.now_timestamp)] ++
        addPrefix "system." sys ++
        addPrefix "cuda." (get_cuda_info env) ++
        addPrefix "python." (get_python_info env) ++
        addPrefix "git." (get_git_info env))

/-! ## Result-inspection commands (scripts/show_results.py) -/

/-- `df["run_id"].str.startswith(prefix)` on one cell: only a string cell
can match. -/
def valStartsWith (v : Val) (p : String) : Bool :=
  match v with
  | .vstr s => p.data.isPrefixOf s.data
  | _ => false

/-- What the `info` command reports. -/
inductive InfoResult where
  | noRuns
  | notFound (asked : String)
  | ambiguous (matching : List Val)
  | found (row : Dict)
deriving DecidableEq, Repr

/-- The `info` command (show_results.py): prefix-filter the loaded runs by
run identifier; more than one match yields the disambiguation listing of
every matching identifier, a single match is displayed. -/
def infoLookup (df : List Dict) (run_id : String) : InfoResult :=
  if df.isEmpty then .noRuns
  else
    let df_filtered := df.filter (fun r => valStartsWith (cell r "run_id") run_id)
    if df_filtered.isEmpty then .notFound run_id
    else if 1 < df_filtered.length then
      .ambiguous (df_filtered.map (fun r => cell r "run_id"))
    else .found (df_filtered.head?.getD [])

/-- What the `timings` command reports. -/
inductive TimingsResult where
  | noData
  | notFound (asked : String)
  | shown (header_run_id : Val) (rows : List Dict)
deriving DecidableEq, Repr

/-- The `timings` command (show_results.py): prefix-filter the loaded timing
rows by run identifier; any nonempty match is displayed, headed by the FIRST
matching row's identifier (`iloc[0]`) — there is no multiple-match branch. -/
def timingsLookup (df : List Dict) (run_id : String) : TimingsResult :=
  if df.isEmpty then .noData
  else
    let df_filtered := df.filter (fun r => valStartsWith (cell r "run_id") run_id)
    match df_filtered with
    | [] => .notFound run_id
    | r :: rest => .shown (cell r "run_id") (r :: rest)

/-! ## The speedup query (scripts/show_results.py, lines 714-744)

The model starts from `df_agg`, the frame grouped by `(datasets, num_gpus)`
with median timings — the grouping upstream of the cited lines.  Group keys
are unique per `(datasets, num_gpus)` pair (a groupby output), so the
`merge(..., on="datasets", how="left")` attaches, to each aggregate row, the
at-most-one baseline row of its dataset; a dataset with no baseline row gets
NaN baseline and NaN ratio cells, modelled as `none`. -/

/-- One row of `df_agg`: `num_gpus` is `pd.to_numeric(..., errors="coerce")`
output (numeric or NaN), the medians may be NaN. -/
structure AggRow where
  datasets : String
  num_gpus : Option ℚ
  median_time_train_s : Option ℚ
  median_time_infer_s : Option ℚ
  count : Nat
deriving DecidableEq, Repr

/-- One row of `df_speedup` after the baseline merge and ratio columns. -/
structure SpeedupRow where
  datasets : String
  num_gpus : Option ℚ
  median_time_train_s : Option ℚ
  median_time_infer_s : Option ℚ
  count : Nat
  baseline_train_s : Option ℚ
  baseline_infer_s : Option ℚ
  speedup_train : Option ℚ
  speedup_infer : Option ℚ
deriving DecidableEq, Repr

/-- NaN-propagating division of float cells (pandas: NaN/x = x/NaN = NaN).
Division by zero (pandas: infinity) is not exercised by any claim. -/
def optDiv (x y : Option ℚ) : Option ℚ :=
  match x, y with
  | some a, some b => some (a / b)
  | _, _ => none

/-- One row of `df_baseline` (the renamed projection of the baseline
groups). -/
structure BaselineRow where
  datasets : String
  baseline_train_s : Option ℚ
  baseline_infer_s : Option ℚ
deriving DecidableEq, Repr

/-- What the cited speedup code produces: an early no-data message, or the
filtered rows that the remaining display code sorts and prints. -/
inductive SpeedupResult where
  | noData (msg : String)
  | ok (rows : List SpeedupRow)
deriving DecidableEq, Repr

/-- Lines 714-737 of show_results.py: extract the baseline groups
(`num_gpus == 0`), bail out when there are none, left-merge them back onto
every aggregate row by dataset, compute the ratio columns, drop the baseline
rows themselves, and bail out when nothing remains. -/
def speedup (df_agg : List AggRow) : SpeedupResult :=
  let df_baseline : List BaselineRow :=
    (df_agg.filter (fun r => decide (r.num_gpus = some 0))).map
      (fun r => { datasets := r.datasets,
                  baseline_train_s := r.median_time_train_s,
                  baseline_infer_s := r.median_time_infer_s })
  if df_baseline.isEmpty then
    .noData "No baseline (num_gpus=0) data found. Cannot compute speedup."
  else
    let df_speedup : List SpeedupRow := df_agg.map (fun r =>
      let base := df_baseline.find? (fun b => decide (b.datasets = r.datasets))
      let bt : Option ℚ := match base with | some b => b.baseline_train_s | none => none
      let bi : Option ℚ := match base with | some b => b.baseline_infer_s | none => none
      { datasets := r.datasets,
        num_gpus := r.num_gpus,
        median_time_train_s := r.median_time_train_s,
        median_time_infer_s := r.median_time_infer_s,
        count := r.count,
        baseline_train_s := bt,
        baseline_infer_s := bi,
        speedup_train := optDiv bt r.median_time_train_s,
        speedup_infer := optDiv bi r.median_time_infer_s })
    let df_speedup := df_speedup.filter (fun r => decide (r.num_gpus ≠ some 0))
    if df_speedup.isEmpty then
      .noData "No GPU runs found to compare against baseline."
    else .ok df_speedup

/-! ## Association-list lemmas -/

theorem lookup_cons_dict {β : Type} (k k0 : String) (v : β) (l : List (String × β)) :
    List.lookup k ((k0, v) :: l) = if k = k0 then some v else List.lookup k l := by
  rw [List.lookup_cons]
  by_cases h : k = k0
  · simp [h]
  · have hb : (k == k0) = false := by simp [h]
    simp [hb, h]

theorem lookup_append_dict {β : Type} (l1 l2 : List (String × β)) (k : String) :
    List.lookup k (l1 ++ l2) =
      match List.lookup k l1 with
      | some v => some v
      | none => List.lookup k l2 := by
  induction l1 with
  | nil => simp
  | cons kv rest ih =>
      rw [List.cons_append, lookup_cons_dict, lookup_cons_dict]
      rcases eq_or_ne k kv.1 with h | h <;> simp [h, ih]

theorem lookup_eq_none_of_keys (r : Dict) (k : String)
    (h : ∀ kv ∈ r, kv.1 ≠ k) : List.lookup k r = none := by
  induction r with
  | nil => rfl
  | cons kv rest ih =>
      rw [lookup_cons_dict,
        if_neg (fun hk => h kv (List.mem_cons_self kv rest) hk.symm)]
      exact ih (fun x hx => h x (List.mem_cons_of_mem _ hx))

theorem lookup_storeSet_self (s : Store) (k : String) (t t0 : Table)
    (h : s.lookup k = some t0) : (storeSet s k t).lookup k = some t := by
  induction s with
  | nil => simp at h
  | cons kv rest ih =>
      rw [storeSet, List.map_cons]
      by_cases hk : kv.1 = k
      · have hb : (kv.1 == k) = true := by simp [hk]
        rw [hb]
        simp [lookup_cons_dict]
      · have hb : (kv.1 == k) = false := by simp [hk]
        rw [hb, lookup_cons_dict, if_neg (fun hh => hk hh.symm)]
        rw [lookup_cons_dict, if_neg (fun hh => hk hh.symm)] at h
        exact ih h

theorem msgHasNoColumn_mk (x y : String) :
    msgHasNoColumn (.operationalError (x ++ " has no column named " ++ y)) = true := by
  rw [msgHasNoColumn, strContains, decide_eq_true_eq]
  have hsplit : (" has no column named ").data
      = (" ").data ++ ("has no column").data ++ (" named ").data := by decide
  refine ⟨x.data ++ (" ").data, (" named ").data ++ y.data, ?_⟩
  rw [String.data_append, String.data_append, hsplit]
  simp

theorem lookup_map_entry (g : String → Val → Val) (l : Dict) (k : String) :
    List.lookup k (l.map (fun kv => (kv.1, g kv.1 kv.2))) =
      (List.lookup k l).map (g k) := by
  induction l with
  | nil => rfl
  | cons kv rest ih =>
      rw [List.map_cons, lookup_cons_dict, lookup_cons_dict]
      rcases eq_or_ne k kv.1 with h | h <;> simp [h, ih]

theorem lookup_filter_unseen (base upd : Dict) (k : String) :
    List.lookup k (upd.filter (fun kv => (List.lookup kv.1 base).isNone)) =
      if (List.lookup k base).isNone then List.lookup k upd else none := by
  induction upd with
  | nil => simp
  | cons kv rest ih =>
      rw [List.filter_cons]
      by_cases hb : (List.lookup kv.1 base).isNone
      · rw [if_pos hb, lookup_cons_dict]
        by_cases h : k = kv.1
        · rw [if_pos h, h, if_pos hb, lookup_cons_dict, if_pos rfl]
        · rw [if_neg h, ih, lookup_cons_dict, if_neg h]
      · rw [if_neg hb, ih]
        by_cases h : k = kv.1
        · rw [h, if_neg hb, if_neg hb]
        · rw [lookup_cons_dict, if_neg h]

theorem lookup_dictUpdate (base upd : Dict) (k : String) :
    List.lookup k (dictUpdate base upd) =
      match List.lookup k base with
      | some v => some ((List.lookup k upd).getD v)
      | none => List.lookup k upd := by
  unfold dictUpdate
  rw [lookup_append_dict, lookup_map_entry (fun key v => (List.lookup key upd).getD v),
    lookup_filter_unseen]
  rcases h : List.lookup k base with _ | v <;> simp [h]

theorem dictUpdate_nil (base : Dict) : dictUpdate base [] = base := by
  simp [dictUpdate]

theorem lookup_projRow (cols : List String) (r : Dict) (k : String) :
    List.lookup k (projRow cols r) = if k ∈ cols then some (cell r k) else none := by
  induction cols with
  | nil => simp [projRow]
  | cons c cs ih =>
      rw [projRow, List.map_cons, lookup_cons_dict]
      rcases eq_or_ne k c with h | h
      · simp [h]
      · rw [if_neg h]
        rw [projRow] at ih
        simp [ih, h]

theorem cell_projRow (cols : List String) (r : Dict) (k : String) :
    cell (projRow cols r) k = if k ∈ cols then cell r k else Val.vnull := by
  rw [cell, lookup_projRow]
  rcases em (k ∈ cols) with h | h <;> simp [h]

/-! ## Claims about the timing scope and export -/

/-- C1: every entered-and-exited timing scope (`BenchmarkTimer.time`) —
whether the body completes normally or raises — appends exactly one
TimingRecord with the given stage label to the timer's timings list; its
recorded `time_ns` is the difference of the two monotonic
`perf_counter_ns()` readings and hence nonnegative, and the body's exception
(if any) is re-raised unchanged. -/
theorem c1_scope_appends_exactly_one_record
    (t : BenchmarkTimer) (stage : String) (md : Option Dict)
    (body : BenchmarkTimer → BenchmarkTimer × Option PyErr)
    (startNs stopNs : Nat) (timestamp : String)
    (hmono : startNs ≤ stopNs) :
    (t.time stage md body startNs stopNs timestamp).1.timings
        = (body t).1.timings
          ++ [timingRow stage ((stopNs : Int) - (startNs : Int)) timestamp
                (dictUpdate t.metadata (md.getD []))]
    ∧ cell (timingRow stage ((stopNs : Int) - (startNs : Int)) timestamp
          (dictUpdate t.metadata (md.getD []))) "stage" = Val.vstr stage
    ∧ cell (timingRow stage ((stopNs : Int) - (startNs : Int)) timestamp
          (dictUpdate t.metadata (md.getD []))) "time_ns"
        = Val.vint ((stopNs : Int) - (startNs : Int))
    ∧ 0 ≤ (stopNs : Int) - (startNs : Int)
    ∧ (t.time stage md body startNs stopNs timestamp).2 = (body t).2
    ∧ ((t.time stage md body startNs stopNs timestamp).1.timings.countP
          (fun r => decide (cell r "stage" = Val.vstr stage)))
        = ((body t).1.timings.countP
            (fun r => decide (cell r "stage" = Val.vstr stage))) + 1 := by
  have hstage : cell (timingRow stage ((stopNs : Int) - (startNs : Int)) timestamp
      (dictUpdate t.metadata (md.getD []))) "stage" = Val.vstr stage := by
    simp [cell, timingRow, lookup_cons_dict]
  have htime : cell (timingRow stage ((stopNs : Int) - (startNs : Int)) timestamp
      (dictUpdate t.metadata (md.getD []))) "time_ns"
        = Val.vint ((stopNs : Int) - (startNs : Int)) := by
    simp [cell, timingRow, lookup_cons_dict]
  have heq : (t.time stage md body startNs stopNs timestamp).1.timings
      = (body t).1.timings
        ++ [timingRow stage ((stopNs : Int) - (startNs : Int)) timestamp
              (dictUpdate t.metadata (md.getD []))] := rfl
  refine ⟨heq, hstage, htime, ?_, rfl, ?_⟩
  · have : (startNs : Int) ≤ (stopNs : Int) := by exact_mod_cast hmono
    omega
  · rw [heq, List.countP_append]
    simp [hstage]

/-- C1 witness: a concrete scope whose body raises still records exactly one
`model_fit` record with elapsed 7 ns. -/
theorem c1_witness :
    ((({ experiment_name := "exp", metadata := [], run_id := "r", context := [], timings := [], _start_time := 0 } : BenchmarkTimer).time
        "model_fit" none (fun s => (s, some (PyErr.exception "boom"))) 5 12 "t1").1.timings)
      = [timingRow "model_fit" 7 "t1" []] := by
  have h := c1_scope_appends_exactly_one_record
    { experiment_name := "exp", metadata := [], run_id := "r", context := [], timings := [], _start_time := 0 }
    "model_fit" none (fun s => (s, some (PyErr.exception "boom"))) 5 12 "t1" (by decide)
  exact h.1.trans (by norm_num [dictUpdate_nil])

/-- C10: the stage metadata attached to the record a scope appends is the
snapshot `deepcopy(self.metadata)` updated with the call-site overrides,
both read at scope ENTRY: whatever the body does to the timer's metadata
mapping (or however the caller's override mapping changes during the body),
the record appended at exit carries the entry-time merge. -/
theorem c10_stage_metadata_snapshot_at_entry
    (t : BenchmarkTimer) (stage : String) (md : Option Dict)
    (body : BenchmarkTimer → BenchmarkTimer × Option PyErr)
    (startNs stopNs : Nat) (timestamp : String) :
    ((t.time stage md body startNs stopNs timestamp).1.timings).getLast?
      = some (timingRow stage ((stopNs : Int) - (startNs : Int)) timestamp
          (dictUpdate t.metadata (md.getD []))) :=
  List.getLast?_concat _

/-- C8: `BenchmarkTimer.to_df` is idempotent and side-effect free: the
method (which works on `deepcopy(self.timings)` and never assigns to
`self`) leaves the timer unchanged, and a second call without an intervening
scope returns the same rows. -/
theorem c8_to_df_idempotent_no_side_effects (t : BenchmarkTimer) :
    (t.to_df_call).2 = t
    ∧ ((t.to_df_call).2.to_df_call).1 = (t.to_df_call).1
    ∧ (t.to_df_call).2.timings = t.timings
    ∧ (t.to_df_call).2.context = t.context :=
  ⟨rfl, rfl, rfl, rfl⟩

/-! ## Claims about the prefix lookups -/

/-- C4 counterexample: with two stored timing rows whose run identifiers
"ab12" and "ab99" both match the prefix "ab", the `timings` lookup does not
return a disambiguation listing — it silently proceeds, showing both runs'
rows under the first matching identifier. -/
theorem c4_counterexample :
    (1 < ([[("run_id", Val.vstr "ab12"), ("stage", Val.vstr "model_fit")],
           [("run_id", Val.vstr "ab99"), ("stage", Val.vstr "model_fit")]].filter
            (fun r => valStartsWith (cell r "run_id") "ab")).length)
    ∧ timingsLookup
        [[("run_id", Val.vstr "ab12"), ("stage", Val.vstr "model_fit")],
         [("run_id", Val.vstr "ab99"), ("stage", Val.vstr "model_fit")]] "ab"
      = TimingsResult.shown (Val.vstr "ab12")
          [[("run_id", Val.vstr "ab12"), ("stage", Val.vstr "model_fit")],
           [("run_id", Val.vstr "ab99"), ("stage", Val.vstr "model_fit")]] := by
  decide

/-- C4 (amended): when a run-identifier prefix matches more than one stored
row, the runs-metadata lookup (`info`) returns the disambiguation listing of
every matching identifier; the `timings` lookup instead returns the rows of
every matching run, headed by the first matching row's identifier, without
disambiguating. -/
theorem c4_amended_prefix_lookup (df : List Dict) (pre : String)
    (hmany : 1 < (df.filter (fun r => valStartsWith (cell r "run_id") pre)).length) :
    infoLookup df pre
      = InfoResult.ambiguous
          ((df.filter (fun r => valStartsWith (cell r "run_id") pre)).map
            (fun r => cell r "run_id"))
    ∧ ∃ r0 rest, df.filter (fun r => valStartsWith (cell r "run_id") pre) = r0 :: rest
        ∧ timingsLookup df pre = TimingsResult.shown (cell r0 "run_id") (r0 :: rest) := by
  have hfne : df.filter (fun r => valStartsWith (cell r "run_id") pre) ≠ [] := by
    intro h
    rw [h] at hmany
    simp at hmany
  have hdfne : df ≠ [] := by
    intro h
    exact hfne (by rw [h]; rfl)
  have hdf : df.isEmpty = false := by
    simp [List.isEmpty_iff, hdfne]
  have hfe : (df.filter (fun r => valStartsWith (cell r "run_id") pre)).isEmpty = false := by
    simp [List.isEmpty_iff, hfne]
  constructor
  · rw [infoLookup]
    simp only [hdf, Bool.false_eq_true, if_false, hfe, hmany, if_true]
  · rcases hf : df.filter (fun r => valStartsWith (cell r "run_id") pre) with _ | ⟨r0, rest⟩
    · exact absurd hf hfne
    · refine ⟨r0, rest, rfl, ?_⟩
      rw [timingsLookup]
      simp only [hdf, Bool.false_eq_true, if_false, hf]

/-- C4 witness: the amended behavior at the two-run input of the
counterexample scenario, on the runs side. -/
theorem c4_witness :
    infoLookup
        [[("run_id", Val.vstr "ab12"), ("experiment_name", Val.vstr "e")],
         [("run_id", Val.vstr "ab99"), ("experiment_name", Val.vstr "e")]] "ab"
      = InfoResult.ambiguous
          (([[("run_id", Val.vstr "ab12"), ("experiment_name", Val.vstr "e")],
             [("run_id", Val.vstr "ab99"), ("experiment_name", Val.vstr "e")]].filter
              (fun r => valStartsWith (cell r "run_id") "ab")).map
            (fun r => cell r "run_id"))
    ∧ ∃ r0 rest,
        [[("run_id", Val.vstr "ab12"), ("experiment_name", Val.vstr "e")],
         [("run_id", Val.vstr "ab99"), ("experiment_name", Val.vstr "e")]].filter
            (fun r => valStartsWith (cell r "run_id") "ab") = r0 :: rest
        ∧ timingsLookup
            [[("run_id", Val.vstr "ab12"), ("experiment_name", Val.vstr "e")],
             [("run_id", Val.vstr "ab99"), ("experiment_name", Val.vstr "e")]] "ab"
          = TimingsResult.shown (cell r0 "run_id") (r0 :: rest) :=
  c4_amended_prefix_lookup
    [[("run_id", Val.vstr "ab12"), ("experiment_name", Val.vstr "e")],
     [("run_id", Val.vstr "ab99"), ("experiment_name", Val.vstr "e")]] "ab" (by decide)

/-! ## Claims about the speedup query -/

/-- C3 counterexample: dataset "d2" has no baseline group (its only
aggregate row has `num_gpus = 2`), yet because dataset "d1" does have a
baseline, the left merge keeps d2's row in the final speedup output with
null (NaN) baseline and ratio cells — it is not omitted. -/
theorem c3_counterexample :
    (∀ r ∈ [({ datasets := "d1", num_gpus := some 0, median_time_train_s := none, median_time_infer_s := none, count := 1 } : AggRow),
            ({ datasets := "d2", num_gpus := some 2, median_time_train_s := some 5, median_time_infer_s := some 5, count := 1 } : AggRow)],
        r.datasets = "d2" → r.num_gpus ≠ some 0)
    ∧ speedup
        [({ datasets := "d1", num_gpus := some 0, median_time_train_s := none, median_time_infer_s := none, count := 1 } : AggRow),
         ({ datasets := "d2", num_gpus := some 2, median_time_train_s := some 5, median_time_infer_s := some 5, count := 1 } : AggRow)]
      = SpeedupResult.ok
          [{ datasets := "d2", num_gpus := some 2, median_time_train_s := some 5,
             median_time_infer_s := some 5, count := 1, baseline_train_s := none,
             baseline_infer_s := none, speedup_train := none, speedup_infer := none }] := by
  decide

/-- C3 (amended): when NO dataset has a baseline group (`num_gpus == 0`)
the speedup computation returns the no-baseline message and omits every
row, and baseline rows themselves never appear in a successful output; but
a dataset without a baseline group is not omitted when some other dataset
has one — its rows are emitted with null baseline and ratio cells. -/
theorem c3_amended_speedup (agg1 agg2 : List AggRow) (rows : List SpeedupRow)
    (h1 : ∀ r ∈ agg1, r.num_gpus ≠ some 0)
    (h2 : speedup agg2 = SpeedupResult.ok rows) :
    speedup agg1 = SpeedupResult.noData "No baseline (num_gpus=0) data found. Cannot compute speedup."
    ∧ ∀ r ∈ rows, r.num_gpus ≠ some 0 := by
  constructor
  · have hb : agg1.filter (fun r => decide (r.num_gpus = some 0)) = [] := by
      rw [List.filter_eq_nil_iff]
      intro a ha
      simp [h1 a ha]
    rw [speedup, hb]
    simp
  · intro r hr
    rw [speedup] at h2
    split at h2
    · exact absurd h2 (by simp)
    · dsimp only at h2
      split at h2
      · exact absurd h2 (by simp)
      · cases h2
        simpa using List.of_mem_filter hr

/-- C3 witness: the amended behavior at concrete inputs — a baseline-free
aggregate yields the no-baseline message, and a successful output carries no
baseline row. -/
theorem c3_witness :
    speedup [({ datasets := "d2", num_gpus := some 2, median_time_train_s := none, median_time_infer_s := none, count := 1 } : AggRow)]
      = SpeedupResult.noData "No baseline (num_gpus=0) data found. Cannot compute speedup."
    ∧ ∀ r ∈ [({ datasets := "d2", num_gpus := some 2, median_time_train_s := some 5,
                median_time_infer_s := some 5, count := 1, baseline_train_s := none,
                baseline_infer_s := none, speedup_train := none, speedup_infer := none } : SpeedupRow)],
        r.num_gpus ≠ some 0 :=
  c3_amended_speedup
    [{ datasets := "d2", num_gpus := some 2, median_time_train_s := none, median_time_infer_s := none, count := 1 }]
    [{ datasets := "d1", num_gpus := some 0, median_time_train_s := none, median_time_infer_s := none, count := 1 },
     { datasets := "d2", num_gpus := some 2, median_time_train_s := some 5, median_time_infer_s := some 5, count := 1 }]
    [{ datasets := "d2", num_gpus := some 2, median_time_train_s := some 5,
       median_time_infer_s := some 5, count := 1, baseline_train_s := none,
       baseline_infer_s := none, speedup_train := none, speedup_infer := none }]
    (by decide) (by decide)

/-! ## Claims about metadata collection -/

/-- The dict of a successful collection (empty for a raised exception);
lets the collection results be inspected without an existential. -/
def exceptDict (x : Except PyErr Dict) : Dict :=
  match x with
  | .ok d => d
  | .error _ => []

/-- A concrete environment whose only failing probe is the psutil RAM
query, which `get_system_info` does not guard. -/
def envPsutilFails : Env :=
  { getuser := .ok "u", oslogin := .ok "u", os_name := "Linux", os_release := "6",
    os_version := "v", architecture := "x86_64", processor := "p", hostname := "h",
    cpu_count := .ok (Val.vint 8), cpu_count_physical := .ok (Val.vint 4),
    total_ram_bytes := .error (.exception "psutil.Error: RAM probe failed"),
    available_ram_bytes := .ok 500,
    cudaProbe := .ok { device_names := ["gpu0"], version := "12.0" },
    python_version := "3.11", python_implementation := "CPython",
    python_executable := "/usr/bin/python", pip_freeze := .ok (some "pkg==1"),
    gitProbe := .ok { commit := "c", branch := some "main", dirty := false, working_dir := "/w" },
    now_iso := "2026-01-01T00:00:00", now_timestamp := 0 }

/-- C5 counterexample: a failure of the system sub-collector's RAM probe is
not caught anywhere — `collect_all_metadata` raises instead of returning a
mapping, so the collection does not always succeed. -/
theorem c5_counterexample :
    collect_all_metadata envPsutilFails
      = Except.error (PyErr.exception "psutil.Error: RAM probe failed") := rfl

/-- C5 (amended): the accelerator and version-control sub-collectors each
catch any failure and substitute null values plus a `*_error` field, and the
toolchain sub-collector catches a dependency-snapshot failure substituting
null — but with no `*_error` field; the system sub-collector catches only
the user-lookup failure (substituting null for `user`), and when its other
probes succeed the whole collection returns a mapping even with all of those
sub-failures at once.  (A failing system probe, by contrast, propagates —
see the counterexample.) -/
theorem c5_amended_metadata_collection (env : Env) (eu ec eg ep : PyErr)
    (so : String) (cv1 cv2 : Val) (r1 r2 : Int)
    (hu : env.getuser = Except.error eu)
    (ho : env.oslogin = Except.error (PyErr.osError so))
    (h1 : env.cpu_count = Except.ok cv1)
    (h2 : env.cpu_count_physical = Except.ok cv2)
    (h3 : env.total_ram_bytes = Except.ok r1)
    (h4 : env.available_ram_bytes = Except.ok r2)
    (hc : env.cudaProbe = Except.error ec)
    (hg : env.gitProbe = Except.error eg)
    (hp : env.pip_freeze = Except.error ep) :
    (collect_all_metadata env).isOk = true
    ∧ ("system." ++ "user", Val.vnull) ∈ exceptDict (collect_all_metadata env)
    ∧ ("cuda." ++ "cuda_error", Val.vstr (errMsg ec)) ∈ exceptDict (collect_all_metadata env)
    ∧ ("cuda." ++ "cuda_version", Val.vnull) ∈ exceptDict (collect_all_metadata env)
    ∧ ("git." ++ "git_error", Val.vstr (errMsg eg)) ∈ exceptDict (collect_all_metadata env)
    ∧ ("git." ++ "git_commit", Val.vnull) ∈ exceptDict (collect_all_metadata env)
    ∧ ("python." ++ "pip_freeze", Val.vnull) ∈ exceptDict (collect_all_metadata env)
    ∧ (get_python_info env).map Prod.fst
        = ["python_version", "python_implementation", "python_executable", "pip_freeze"] := by
  have hsys : get_system_info env
      = Except.ok
          [("os", Val.vstr env.os_name), ("os_release", Val.vstr env.os_release),
           ("os_version", Val.vstr env.os_version), ("architecture", Val.vstr env.architecture),
           ("processor", Val.vstr env.processor), ("hostname", Val.vstr env.hostname),
           ("user", Val.vnull), ("cpu_count", cv1), ("cpu_count_physical", cv2),
           ("total_ram_bytes", Val.vint r1), ("available_ram_bytes", Val.vint r2)] := by
    rw [get_system_info, hu, ho, h1, h2, h3, h4]
    rfl
  have hall : collect_all_metadata env
      = Except.ok
          ([("execution_datetime", Val.vstr env.now_iso),
            ("execution_timestamp", Val.vrat env.now_timestamp)] ++
           addPrefix "system."
             [("os", Val.vstr env.os_name), ("os_release", Val.vstr env.os_release),
              ("os_version", Val.vstr env.os_version), ("architecture", Val.vstr env.architecture),
              ("processor", Val.vstr env.processor), ("hostname", Val.vstr env.hostname),
              ("user", Val.vnull), ("cpu_count", cv1), ("cpu_count_physical", cv2),
              ("total_ram_bytes", Val.vint r1), ("available_ram_bytes", Val.vint r2)] ++
           addPrefix "cuda." (get_cuda_info env) ++
           addPrefix "python." (get_python_info env) ++
           addPrefix "git." (get_git_info env)) := by
    rw [collect_all_metadata, hsys]
    rfl
  have hcuda : get_cuda_info env
      = [("cuda_available", Val.vbool false), ("cuda_device_count", Val.vint 0),
         ("cuda_device_names", Val.vstr (jsonListStr [])), ("cuda_version", Val.vnull),
         ("cuda_error", Val.vstr (errMsg ec))] := by
    rw [get_cuda_info, hc]
  have hgit : get_git_info env
      = [("git_commit", Val.vnull), ("git_branch", Val.vnull), ("git_dirty", Val.vnull),
         ("git_working_dir", Val.vnull), ("git_error", Val.vstr (errMsg eg))] := by
    rw [get_git_info, hg]
  have hpy : get_python_info env
      = [("python_version", Val.vstr env.python_version),
         ("python_implementation", Val.vstr env.python_implementation),
         ("python_executable", Val.vstr env.python_executable),
         ("pip_freeze", Val.vnull)] := by
    rw [get_python_info, hp]
    rfl
  refine ⟨by rw [hall]; rfl, ?_, ?_, ?_, ?_, ?_, ?_, by rw [hpy]; rfl⟩ <;>
    simp [hall, hcuda, hgit, hpy, exceptDict, addPrefix]

/-- C5 witness: a concrete environment where the user lookup, the CUDA
probe, the git probe and the pip snapshot all fail but the system probes
succeed: the collection still returns a mapping with the documented
substitutions. -/
theorem c5_witness :
    (collect_all_metadata
        { getuser := .error (.exception "no user"), oslogin := .error (.osError "no login"), os_name := "Linux", os_release := "6", os_version := "v", architecture := "arm64", processor := "p", hostname := "h", cpu_count := .ok (Val.vint 8), cpu_count_physical := .ok (Val.vint 4), total_ram_bytes := .ok 1000, available_ram_bytes := .ok 500, cudaProbe := .error (.exception "numba missing"), python_version := "3.11", python_implementation := "CPython", python_executable := "/usr/bin/python", pip_freeze := .error (.exception "pip timeout"), gitProbe := .error (.exception "not a git repository"), now_iso := "2026-01-01T00:00:00", now_timestamp := 0 }).isOk = true
    ∧ ("system." ++ "user", Val.vnull) ∈ exceptDict (collect_all_metadata
        { getuser := .error (.exception "no user"), oslogin := .error (.osError "no login"), os_name := "Linux", os_release := "6", os_version := "v", architecture := "arm64", processor := "p", hostname := "h", cpu_count := .ok (Val.vint 8), cpu_count_physical := .ok (Val.vint 4), total_ram_bytes := .ok 1000, available_ram_bytes := .ok 500, cudaProbe := .error (.exception "numba missing"), python_version := "3.11", python_implementation := "CPython", python_executable := "/usr/bin/python", pip_freeze := .error (.exception "pip timeout"), gitProbe := .error (.exception "not a git repository"), now_iso := "2026-01-01T00:00:00", now_timestamp := 0 })
    ∧ ("cuda." ++ "cuda_error", Val.vstr (errMsg (.exception "numba missing"))) ∈ exceptDict (collect_all_metadata
        { getuser := .error (.exception "no user"), oslogin := .error (.osError "no login"), os_name := "Linux", os_release := "6", os_version := "v", architecture := "arm64", processor := "p", hostname := "h", cpu_count := .ok (Val.vint 8), cpu_count_physical := .ok (Val.vint 4), total_ram_bytes := .ok 1000, available_ram_bytes := .ok 500, cudaProbe := .error (.exception "numba missing"), python_version := "3.11", python_implementation := "CPython", python_executable := "/usr/bin/python", pip_freeze := .error (.exception "pip timeout"), gitProbe := .error (.exception "not a git repository"), now_iso := "2026-01-01T00:00:00", now_timestamp := 0 })
    ∧ ("cuda." ++ "cuda_version", Val.vnull) ∈ exceptDict (collect_all_metadata
        { getuser := .error (.exception "no user"), oslogin := .error (.osError "no login"), os_name := "Linux", os_release := "6", os_version := "v", architecture := "arm64", processor := "p", hostname := "h", cpu_count := .ok (Val.vint 8), cpu_count_physical := .ok (Val.vint 4), total_ram_bytes := .ok 1000, available_ram_bytes := .ok 500, cudaProbe := .error (.exception "numba missing"), python_version := "3.11", python_implementation := "CPython", python_executable := "/usr/bin/python", pip_freeze := .error (.exception "pip timeout"), gitProbe := .error (.exception "not a git repository"), now_iso := "2026-01-01T00:00:00", now_timestamp := 0 })
    ∧ ("git." ++ "git_error", Val.vstr (errMsg (.exception "not a git repository"))) ∈ exceptDict (collect_all_metadata
        { getuser := .error (.exception "no user"), oslogin := .error (.osError "no login"), os_name := "Linux", os_release := "6", os_version := "v", architecture := "arm64", processor := "p", hostname := "h", cpu_count := .ok (Val.vint 8), cpu_count_physical := .ok (Val.vint 4), total_ram_bytes := .ok 1000, available_ram_bytes := .ok 500, cudaProbe := .error (.exception "numba missing"), python_version := "3.11", python_implementation := "CPython", python_executable := "/usr/bin/python", pip_freeze := .error (.exception "pip timeout"), gitProbe := .error (.exception "not a git repository"), now_iso := "2026-01-01T00:00:00", now_timestamp := 0 })
    ∧ ("git." ++ "git_commit", Val.vnull) ∈ exceptDict (collect_all_metadata
        { getuser := .error (.exception "no user"), oslogin := .error (.osError "no login"), os_name := "Linux", os_release := "6", os_version := "v", architecture := "arm64", processor := "p", hostname := "h", cpu_count := .ok (Val.vint 8), cpu_count_physical := .ok (Val.vint 4), total_ram_bytes := .ok 1000, available_ram_bytes := .ok 500, cudaProbe := .error (.exception "numba missing"), python_version := "3.11", python_implementation := "CPython", python_executable := "/usr/bin/python", pip_freeze := .error (.exception "pip timeout"), gitProbe := .error (.exception "not a git repository"), now_iso := "2026-01-01T00:00:00", now_timestamp := 0 })
    ∧ ("python." ++ "pip_freeze", Val.vnull) ∈ exceptDict (collect_all_metadata
        { getuser := .error (.exception "no user"), oslogin := .error (.osError "no login"), os_name := "Linux", os_release := "6", os_version := "v", architecture := "arm64", processor := "p", hostname := "h", cpu_count := .ok (Val.vint 8), cpu_count_physical := .ok (Val.vint 4), total_ram_bytes := .ok 1000, available_ram_bytes := .ok 500, cudaProbe := .error (.exception "numba missing"), python_version := "3.11", python_implementation := "CPython", python_executable := "/usr/bin/python", pip_freeze := .error (.exception "pip timeout"), gitProbe := .error (.exception "not a git repository"), now_iso := "2026-01-01T00:00:00", now_timestamp := 0 })
    ∧ (get_python_info
        { getuser := .error (.exception "no user"), oslogin := .error (.osError "no login"), os_name := "Linux", os_release := "6", os_version := "v", architecture := "arm64", processor := "p", hostname := "h", cpu_count := .ok (Val.vint 8), cpu_count_physical := .ok (Val.vint 4), total_ram_bytes := .ok 1000, available_ram_bytes := .ok 500, cudaProbe := .error (.exception "numba missing"), python_version := "3.11", python_implementation := "CPython", python_executable := "/usr/bin/python", pip_freeze := .error (.exception "pip timeout"), gitProbe := .error (.exception "not a git repository"), now_iso := "2026-01-01T00:00:00", now_timestamp := 0 }).map Prod.fst
        = ["python_version", "python_implementation", "python_executable", "pip_freeze"] :=
  c5_amended_metadata_collection _
    (.exception "no user") (.exception "numba missing") (.exception "not a git repository")
    (.exception "pip timeout") "no login" (Val.vint 8) (Val.vint 4) 1000 500
    rfl rfl rfl rfl rfl rfl rfl rfl rfl

/-! ## Claims about empty appends and missing-table loads -/

/-- C7: appending an empty row sequence — an empty DataFrame through
`_save_dataframe_with_schema_evolution`, or a timer with zero timing records
through `to_sql` — is a no-op on the connection (no table created, no schema
touched, nothing logged), and loading `benchmark_runs` when that table does
not exist returns an empty frame, not an error, with or without an
experiment-name filter. -/
theorem c7_empty_append_noop_missing_table_load
    (df : DataFrame) (conn conn2 conn3 : Conn) (table : String)
    (t : BenchmarkTimer) (ename : String)
    (hdf : df.rows = [])
    (ht : t.timings = [])
    (hmiss : conn3.store.lookup "benchmark_runs" = none) :
    saveDataFrameWithSchemaEvolution df conn table = Except.ok conn
    ∧ BenchmarkTimer.to_sql t conn2 table = Except.ok conn2
    ∧ load_benchmark_runs none conn3 = pdDataFrame []
    ∧ load_benchmark_runs (some ename) conn3 = pdDataFrame []
    ∧ pdDataFrame [] = { cols := [], rows := [] } := by
  refine ⟨?_, ?_, ?_, ?_, rfl⟩
  · simp [saveDataFrameWithSchemaEvolution, hdf]
  · simp [BenchmarkTimer.to_sql, saveDataFrameWithSchemaEvolution,
      BenchmarkTimer.to_df, ht, pdDataFrame]
  · simp [load_benchmark_runs, pdReadSqlTable, hmiss]
  · simp [load_benchmark_runs, pdReadSqlTable, hmiss]

/-- C7 witness: the no-op append and the empty load at concrete inputs. -/
theorem c7_witness :
    saveDataFrameWithSchemaEvolution { cols := ["a"], rows := [] } { store := [], log := [] } "t"
        = Except.ok { store := [], log := [] }
    ∧ BenchmarkTimer.to_sql
        { experiment_name := "exp", metadata := [], run_id := "r", context := [], timings := [], _start_time := 0 }
        { store := [], log := [] } "t"
        = Except.ok { store := [], log := [] }
    ∧ load_benchmark_runs none { store := [], log := [] } = pdDataFrame []
    ∧ load_benchmark_runs (some "exp") { store := [], log := [] } = pdDataFrame []
    ∧ pdDataFrame [] = { cols := [], rows := [] } :=
  c7_empty_append_noop_missing_table_load
    { cols := ["a"], rows := [] } { store := [], log := [] } { store := [], log := [] }
    { store := [], log := [] } "t"
    { experiment_name := "exp", metadata := [], run_id := "r", context := [], timings := [], _start_time := 0 }
    "exp" rfl rfl rfl

/-! ## Claim about the schema-evolution round trip -/

/-- C2: writing N rows with columns `{a,b}` and then M rows with columns
`{a,c}` to the same (initially absent) table widens it to columns `[a,b,c]`
with N+M rows: the first batch's `c` cells are null, the second batch's `b`
cells are null, no existing row or column is discarded (the first batch's
`a`/`b` cells and the second batch's `a`/`c` cells are preserved verbatim),
and a failure of the underlying append whose message is not a
"has no column" schema mismatch propagates to the caller unrecovered. -/
theorem c2_schema_evolution_round_trip
    (a b c tbl : String) (rows1 rows2 : List Dict) (conn : Conn)
    (hab : a ≠ b) (hac : a ≠ c) (hbc : b ≠ c)
    (hnew : conn.store.lookup tbl = none)
    (h1 : rows1 ≠ []) (h2 : rows2 ≠ [])
    (hwf2 : ∀ r ∈ rows2, ∀ kv ∈ r, kv.1 = a ∨ kv.1 = c)
    (att : Except SqlError Conn) (recw : SqlError → Except SqlError Conn)
    (e : SqlError) (hatt : att = Except.error e) (hno : msgHasNoColumn e = false) :
    ∃ conn1 conn2 : Conn,
      saveDataFrameWithSchemaEvolution { cols := [a, b], rows := rows1 } conn tbl
          = Except.ok conn1
      ∧ saveDataFrameWithSchemaEvolution { cols := [a, c], rows := rows2 } conn1 tbl
          = Except.ok conn2
      ∧ (∃ T : Table, conn2.store.lookup tbl = some T
          ∧ T.cols = [a, b, c]
          ∧ T.rows = rows1.map (fun r => projRow [a, b, c] (projRow [a, b] r))
              ++ rows2.map (fun r => projRow [a, b, c] r)
          ∧ T.rows.length = rows1.length + rows2.length)
      ∧ (∀ r : Dict,
            cell (projRow [a, b, c] (projRow [a, b] r)) c = Val.vnull
          ∧ cell (projRow [a, b, c] (projRow [a, b] r)) a = cell r a
          ∧ cell (projRow [a, b, c] (projRow [a, b] r)) b = cell r b)
      ∧ (∀ r ∈ rows2,
            cell (projRow [a, b, c] r) b = Val.vnull
          ∧ cell (projRow [a, b, c] r) a = cell r a
          ∧ cell (projRow [a, b, c] r) c = cell r c)
      ∧ trySchemaEvolution att recw = Except.error e := by
  have hca : c ≠ a := Ne.symm hac
  have hcb : c ≠ b := Ne.symm hbc
  have hcmemab : c ∉ ([a, b] : List String) := by
    intro hmem
    rcases List.mem_cons.mp hmem with h | h
    · exact hca h
    · exact hcb (List.mem_singleton.mp h)
  have hamem : a ∈ ([a, b, c] : List String) := by simp
  have hbmem : b ∈ ([a, b, c] : List String) := by simp
  have hcmem : c ∈ ([a, b, c] : List String) := by simp
  have hamemab : a ∈ ([a, b] : List String) := by simp
  have hbmemab : b ∈ ([a, b] : List String) := by simp
  -- the first write creates the table
  have e1 : saveDataFrameWithSchemaEvolution { cols := [a, b], rows := rows1 } conn tbl
      = Except.ok
          { store := conn.store
              ++ [(tbl, { cols := [a, b], rows := rows1.map (projRow [a, b]) })],
            log := conn.log ++ [DbEvent.appendTo tbl { cols := [a, b], rows := rows1 }] } := by
    rw [saveDataFrameWithSchemaEvolution]
    rw [if_neg (by simpa using h1)]
    rw [show sqliteAppend { cols := [a, b], rows := rows1 } conn tbl
        = Except.ok
            { store := conn.store
                ++ [(tbl, { cols := [a, b], rows := rows1.map (projRow [a, b]) })],
              log := conn.log ++ [DbEvent.appendTo tbl { cols := [a, b], rows := rows1 }] }
      from by rw [sqliteAppend, hnew]]
    rfl
  set T1 : Table := { cols := [a, b], rows := rows1.map (projRow [a, b]) } with hT1
  set conn1 : Conn :=
    { store := conn.store ++ [(tbl, T1)],
      log := conn.log ++ [DbEvent.appendTo tbl { cols := [a, b], rows := rows1 }] } with hconn1
  have hl1 : conn1.store.lookup tbl = some T1 := by
    rw [hconn1, lookup_append_dict, hnew, lookup_cons_dict, if_pos rfl]
  have hcontab_a : (([a, b] : List String).contains a) = true := by simp
  have hcontab_c : (([a, b] : List String).contains c) = false := by
    simp [List.contains]
    exact ⟨hca, hcb⟩
  have hfind : ([a, c] : List String).find? (fun x => !(([a, b] : List String).contains x))
      = some c := by
    rw [List.find?]
    rw [hcontab_a]
    rw [show (!true) = false from rfl]
    rw [List.find?]
    rw [hcontab_c]
    rfl
  have happ2 : sqliteAppend { cols := [a, c], rows := rows2 } conn1 tbl
      = Except.error (.operationalError ("table " ++ tbl ++ " has no column named " ++ c)) := by
    rw [sqliteAppend, hl1, hT1]
    dsimp only
    rw [hfind]
  have huc : unionCols [a, b] [a, c] = [a, b, c] := by
    rw [unionCols, List.foldl, List.foldl, List.foldl, hcontab_a]
    rw [if_pos rfl]
    rw [hcontab_c]
    rw [if_neg (by simp)]
    rfl
  set T2 : Table :=
    { cols := [a, b, c], rows := (T1.rows ++ rows2).map (projRow [a, b, c]) } with hT2
  set conn2 : Conn :=
    { store := storeSet conn1.store tbl T2,
      log := (conn1.log ++ [DbEvent.readTable tbl])
        ++ [DbEvent.replaceTable tbl { cols := [a, b, c], rows := T1.rows ++ rows2 }] } with hconn2
  have hconcat : pdConcat { cols := T1.cols, rows := T1.rows } { cols := [a, c], rows := rows2 }
      = { cols := [a, b, c], rows := T1.rows ++ rows2 } := by
    rw [pdConcat, hT1]
    dsimp only
    rw [huc]
  have hsome : (List.lookup tbl conn1.store).isSome = true := by
    rw [hl1]
    rfl
  have e2 : saveDataFrameWithSchemaEvolution { cols := [a, c], rows := rows2 } conn1 tbl
      = Except.ok conn2 := by
    rw [saveDataFrameWithSchemaEvolution]
    rw [if_neg (by simpa using h2)]
    rw [happ2]
    show (if msgHasNoColumn (.operationalError ("table " ++ tbl ++ " has no column named " ++ c)) = true
          then schemaEvolutionRecover { cols := [a, c], rows := rows2 } conn1 tbl
          else Except.error (.operationalError ("table " ++ tbl ++ " has no column named " ++ c)))
        = Except.ok conn2
    rw [msgHasNoColumn_mk ("table " ++ tbl) c]
    rw [if_pos rfl]
    show (match pdReadSqlTable conn1 tbl with
          | .error e2 => (Except.error e2 : Except SqlError Conn)
          | .ok (df_existing, c1) =>
              Except.ok (sqliteReplace (pdConcat df_existing { cols := [a, c], rows := rows2 }) c1 tbl))
        = Except.ok conn2
    rw [pdReadSqlTable, hl1]
    show Except.ok
        (sqliteReplace (pdConcat { cols := T1.cols, rows := T1.rows } { cols := [a, c], rows := rows2 })
          { store := conn1.store, log := conn1.log ++ [DbEvent.readTable tbl] } tbl)
      = Except.ok conn2
    rw [hconcat]
    show Except.ok
        ({ store := if (List.lookup tbl conn1.store).isSome
              then storeSet conn1.store tbl
                { cols := [a, b, c], rows := (T1.rows ++ rows2).map (projRow [a, b, c]) }
              else conn1.store ++ [(tbl,
                { cols := [a, b, c], rows := (T1.rows ++ rows2).map (projRow [a, b, c]) })],
           log := (conn1.log ++ [DbEvent.readTable tbl])
              ++ [DbEvent.replaceTable tbl { cols := [a, b, c], rows := T1.rows ++ rows2 }] } : Conn)
      = Except.ok conn2
    rw [hsome]
    rw [if_pos rfl]
  have hl2 : conn2.store.lookup tbl = some T2 :=
    lookup_storeSet_self conn1.store tbl T2 T1 hl1
  refine ⟨conn1, conn2, e1, e2, ⟨T2, hl2, rfl, ?_, ?_⟩, ?_, ?_, ?_⟩
  · rw [hT2, hT1]
    simp [List.map_map, Function.comp]
  · rw [hT2, hT1]
    simp
  · intro r
    refine ⟨?_, ?_, ?_⟩
    · rw [cell_projRow, if_pos hcmem, cell_projRow, if_neg hcmemab]
    · rw [cell_projRow, if_pos hamem, cell_projRow, if_pos hamemab]
    · rw [cell_projRow, if_pos hbmem, cell_projRow, if_pos hbmemab]
  · intro r hr
    refine ⟨?_, ?_, ?_⟩
    · rw [cell_projRow, if_pos hbmem, cell]
      rw [lookup_eq_none_of_keys r b
        (fun kv hkv => by
          rcases hwf2 r hr kv hkv with h | h
          · exact fun hb => hab (h.symm.trans hb)
          · exact fun hb => hcb (h.symm.trans hb))]
      rfl
    · rw [cell_projRow, if_pos hamem]
    · rw [cell_projRow, if_pos hcmem]
  · simp [trySchemaEvolution, hatt, hno]

/-- C2 witness: the round trip at a concrete store — one `{a,b}` row then
one `{a,c}` row into a fresh table "t", plus a concrete non-schema error
("database is locked") that the handler re-raises. -/
theorem c2_witness :
    ∃ conn1 conn2 : Conn,
      saveDataFrameWithSchemaEvolution
          { cols := ["a", "b"], rows := [[("a", Val.vint 1), ("b", Val.vint 2)]] }
          { store := [], log := [] } "t"
        = Except.ok conn1
      ∧ saveDataFrameWithSchemaEvolution
          { cols := ["a", "c"], rows := [[("a", Val.vint 3), ("c", Val.vint 4)]] }
          conn1 "t"
        = Except.ok conn2
      ∧ (∃ T : Table, conn2.store.lookup "t" = some T
          ∧ T.cols = ["a", "b", "c"]
          ∧ T.rows = [[("a", Val.vint 1), ("b", Val.vint 2)]].map
                (fun r => projRow ["a", "b", "c"] (projRow ["a", "b"] r))
              ++ [[("a", Val.vint 3), ("c", Val.vint 4)]].map
                (fun r => projRow ["a", "b", "c"] r)
          ∧ T.rows.length
              = ([[("a", Val.vint 1), ("b", Val.vint 2)]] : List Dict).length
                + ([[("a", Val.vint 3), ("c", Val.vint 4)]] : List Dict).length)
      ∧ (∀ r : Dict,
            cell (projRow ["a", "b", "c"] (projRow ["a", "b"] r)) "c" = Val.vnull
          ∧ cell (projRow ["a", "b", "c"] (projRow ["a", "b"] r)) "a" = cell r "a"
          ∧ cell (projRow ["a", "b", "c"] (projRow ["a", "b"] r)) "b" = cell r "b")
      ∧ (∀ r ∈ ([[("a", Val.vint 3), ("c", Val.vint 4)]] : List Dict),
            cell (projRow ["a", "b", "c"] r) "b" = Val.vnull
          ∧ cell (projRow ["a", "b", "c"] r) "a" = cell r "a"
          ∧ cell (projRow ["a", "b", "c"] r) "c" = cell r "c")
      ∧ trySchemaEvolution (Except.error (SqlError.operationalError "database is locked"))
          (fun _ => Except.ok { store := [], log := [] })
        = Except.error (SqlError.operationalError "database is locked") :=
  c2_schema_evolution_round_trip "a" "b" "c" "t"
    [[("a", Val.vint 1), ("b", Val.vint 2)]]
    [[("a", Val.vint 3), ("c", Val.vint 4)]]
    { store := [], log := [] }
    (by decide) (by decide) (by decide) rfl (by decide) (by decide) (by decide)
    (Except.error (SqlError.operationalError "database is locked"))
    (fun _ => Except.ok { store := [], log := [] })
    (SqlError.operationalError "database is locked") rfl (by decide)

/-! ## Claim about the order of the two persistence writes -/

theorem sqliteAppend_ok_log (df : DataFrame) (conn : Conn) (table : String) (c : Conn)
    (h : sqliteAppend df conn table = Except.ok c) :
    c.log = conn.log ++ [DbEvent.appendTo table df] := by
  rw [sqliteAppend] at h
  split at h
  · cases h
    rfl
  · split at h
    · exact absurd h (by simp)
    · cases h
      rfl

theorem pdReadSqlTable_ok_log (conn : Conn) (table : String) (df : DataFrame) (c : Conn)
    (h : pdReadSqlTable conn table = Except.ok (df, c)) :
    c.store = conn.store ∧ c.log = conn.log ++ [DbEvent.readTable table] := by
  rw [pdReadSqlTable] at h
  split at h
  · exact absurd h (by simp)
  · cases h
    exact ⟨rfl, rfl⟩

theorem sqliteReplace_log (df : DataFrame) (conn : Conn) (table : String) :
    (sqliteReplace df conn table).log = conn.log ++ [DbEvent.replaceTable table df] := rfl

theorem schemaEvolutionRecover_ok_log (df : DataFrame) (conn : Conn) (table : String)
    (conn2 : Conn) (h : schemaEvolutionRecover df conn table = Except.ok conn2) :
    ∃ mdf : DataFrame,
      conn2.log = conn.log ++ [DbEvent.readTable table, DbEvent.replaceTable table mdf] := by
  rw [schemaEvolutionRecover] at h
  split at h
  · exact absurd h (by simp)
  · rename_i df_existing c1 heq
    cases h
    obtain ⟨hs, hl⟩ := pdReadSqlTable_ok_log conn table df_existing c1 heq
    refine ⟨pdConcat df_existing df, ?_⟩
    rw [sqliteReplace_log, hl, List.append_assoc]
    rfl

theorem saveDataFrame_ok_log (df : DataFrame) (conn : Conn) (table : String) (conn2 : Conn)
    (h : saveDataFrameWithSchemaEvolution df conn table = Except.ok conn2) :
    ∃ E : List DbEvent, conn2.log = conn.log ++ E
      ∧ (∀ ev ∈ E, eventTable ev = table)
      ∧ (df.rows ≠ [] → E ≠ []) := by
  rw [saveDataFrameWithSchemaEvolution] at h
  split at h
  · rename_i hz
    cases h
    exact ⟨[], by simp, by simp, fun hne => absurd (List.length_eq_zero.mp hz) hne⟩
  · unfold trySchemaEvolution at h
    split at h
    · rename_i c heq
      cases h
      exact ⟨[DbEvent.appendTo table df],
        sqliteAppend_ok_log df conn table _ heq,
        by simp [eventTable],
        fun _ => by simp⟩
    · rename_i e2 heq
      split at h
      · dsimp only at h
        obtain ⟨mdf, hlog⟩ := schemaEvolutionRecover_ok_log df conn table conn2 h
        exact ⟨[DbEvent.readTable table, DbEvent.replaceTable table mdf], hlog,
          by simp [eventTable],
          fun _ => by simp⟩
      · exact absurd h (by simp)

/-- C6: every successful `save_experiment_results` call performs its store
writes through the same connection as two separate groups of events, the
timing-batch write to `benchmark_timings` entirely (strictly) before the
run-summary write to `benchmark_runs`. -/
theorem c6_timings_written_before_run_summary
    (timer : BenchmarkTimer) (results_json : String) (datasets : Option (List String))
    (conn : Conn) (nowNs : Nat) (timestamp : String) (conn2 : Conn)
    (h : save_experiment_results timer results_json datasets conn nowNs timestamp
        = Except.ok conn2) :
    ∃ E1 E2 : List DbEvent,
      conn2.log = conn.log ++ E1 ++ E2
      ∧ E1 ≠ [] ∧ E2 ≠ []
      ∧ (∀ ev ∈ E1, eventTable ev = "benchmark_timings")
      ∧ (∀ ev ∈ E2, eventTable ev = "benchmark_runs") := by
  rw [save_experiment_results] at h
  split at h
  · exact absurd h (by simp)
  · rename_i conn1 heq1
    rw [BenchmarkTimer.to_sql] at heq1
    obtain ⟨E1, hE1, hev1, hne1⟩ :=
      saveDataFrame_ok_log _ conn "benchmark_timings" conn1 heq1
    obtain ⟨E2, hE2, hev2, hne2⟩ :=
      saveDataFrame_ok_log _ conn1 "benchmark_runs" conn2 h
    refine ⟨E1, E2, ?_, ?_, ?_, hev1, hev2⟩
    · rw [hE2, hE1, List.append_assoc]
    · apply hne1
      show (pdDataFrame (timer.record_total_time nowNs timestamp).to_df).rows ≠ []
      simp [pdDataFrame, BenchmarkTimer.to_df, BenchmarkTimer.record_total_time]
    · apply hne2
      show (pdDataFrame
        [mkRunSummary (timer.record_total_time nowNs timestamp) results_json datasets]).rows ≠ []
      simp [pdDataFrame]

/-- C6 witness: a concrete save on an empty store logs the timings append
strictly before the run-summary append on the same connection. -/
theorem c6_witness :
    ∃ conn2 : Conn,
      save_experiment_results
          { experiment_name := "exp", metadata := [], run_id := "r", context := [], timings := [], _start_time := 0 }
          "results" none { store := [], log := [] } 100 "ts"
        = Except.ok conn2
      ∧ ∃ E1 E2 : List DbEvent,
          conn2.log = ({ store := [], log := [] } : Conn).log ++ E1 ++ E2
          ∧ E1 ≠ [] ∧ E2 ≠ []
          ∧ (∀ ev ∈ E1, eventTable ev = "benchmark_timings")
          ∧ (∀ ev ∈ E2, eventTable ev = "benchmark_runs") := by
  rcases hsv : save_experiment_results
      { experiment_name := "exp", metadata := [], run_id := "r", context := [], timings := [], _start_time := 0 }
      "results" none { store := [], log := [] } 100 "ts" with e | c2
  · have hok : (save_experiment_results
        { experiment_name := "exp", metadata := [], run_id := "r", context := [], timings := [], _start_time := 0 }
        "results" none { store := [], log := [] } 100 "ts").isOk = true := rfl
    rw [hsv] at hok
    exact absurd hok (by simp [Except.isOk, Except.toBool])
  · exact ⟨c2, rfl,
      c6_timings_written_before_run_summary
        { experiment_name := "exp", metadata := [], run_id := "r", context := [], timings := [], _start_time := 0 }
        "results" none { store := [], log := [] } 100 "ts" c2 hsv⟩

/-! ## Claim about the synthetic total record -/

theorem lookup_serialize (l : Dict) (k : String) :
    List.lookup k (l.map (fun kv => (kv.1, serializeForSqlite kv.2)))
      = (List.lookup k l).map serializeForSqlite :=
  lookup_map_entry (fun _ v => serializeForSqlite v) l k

theorem lookup_dictUpdate_of_none (base upd : Dict) (k : String)
    (h : List.lookup k upd = none) :
    List.lookup k (dictUpdate base upd) = List.lookup k base := by
  rw [lookup_dictUpdate, h]
  cases hb : List.lookup k base <;> simp

theorem lookup_dictUpdate_of_some (base upd : Dict) (k : String) (v : Val)
    (h : List.lookup k upd = some v) :
    List.lookup k (dictUpdate base upd) = some v := by
  rw [lookup_dictUpdate, h]
  cases hb : List.lookup k base <;> simp

theorem cell_toDfRow (t : BenchmarkTimer) (raw : Dict) (k : String)
    (hk : List.lookup k t.context = none)
    (hk1 : k ≠ "experiment_name") (hk2 : k ≠ "run_id") :
    cell (toDfRow t raw) k = cell raw k := by
  rw [toDfRow, cell, lookup_serialize]
  rw [lookup_dictUpdate_of_none _ _ _ hk]
  rw [lookup_dictUpdate_of_none _ _ _ (by rw [lookup_cons_dict, if_neg hk2]; rfl)]
  rw [lookup_dictUpdate_of_none _ _ _ (by rw [lookup_cons_dict, if_neg hk1]; rfl)]
  rw [cell]
  cases hraw : List.lookup k raw <;> simp [serializeForSqlite]

/-- C9: `save_experiment_results` first appends the synthetic "total" record
(`record_total_time`) and only then persists, so (1) the saved timing batch
is the one of the total-extended timer, (2) that batch contains a record
with stage "total", and (3) the run-summary row carries `total_time_s` and
`total_time_ms` copied from the FIRST record of the batch whose stage is
"total".  (The hypothesis that the run context has no key "stage" reflects
the collected metadata, whose keys are all dot-prefixed.) -/
theorem c9_save_appends_total_record
    (timer : BenchmarkTimer) (results_json : String) (datasets : Option (List String))
    (nowNs : Nat) (timestamp : String)
    (hctx : List.lookup "stage" timer.context = none) :
    (∀ conn : Conn, save_experiment_results timer results_json datasets conn nowNs timestamp
        = match (timer.record_total_time nowNs timestamp).to_sql conn "benchmark_timings" with
          | .error e => .error e
          | .ok conn1 =>
              saveDataFrameWithSchemaEvolution
                (pdDataFrame
                  [mkRunSummary (timer.record_total_time nowNs timestamp) results_json datasets])
                conn1 "benchmark_runs")
    ∧ (∃ r ∈ (pdDataFrame (timer.record_total_time nowNs timestamp).to_df).rows,
          cell r "stage" = Val.vstr "total")
    ∧ (∃ r0 : Dict,
          ((pdDataFrame (timer.record_total_time nowNs timestamp).to_df).rows.filter
            (fun r => decide (cell r "stage" = Val.vstr "total"))).head? = some r0
        ∧ cell (mkRunSummary (timer.record_total_time nowNs timestamp) results_json datasets)
            "total_time_s" = cell r0 "time_s"
        ∧ cell (mkRunSummary (timer.record_total_time nowNs timestamp) results_json datasets)
            "total_time_ms" = cell r0 "time_ms") := by
  have hstage_raw : cell (timingRow "total"
      ((nowNs : Int) - (timer._start_time : Int)) timestamp []) "stage" = Val.vstr "total" := by
    simp [timingRow, cell, lookup_cons_dict]
  have hmemraw : timingRow "total" ((nowNs : Int) - (timer._start_time : Int)) timestamp []
      ∈ (timer.record_total_time nowNs timestamp).timings := by
    rw [BenchmarkTimer.record_total_time]
    simp
  have hr : toDfRow (timer.record_total_time nowNs timestamp)
        (timingRow "total" ((nowNs : Int) - (timer._start_time : Int)) timestamp [])
      ∈ (timer.record_total_time nowNs timestamp).to_df :=
    List.mem_map_of_mem _ hmemraw
  have hstage : cell (toDfRow (timer.record_total_time nowNs timestamp)
      (timingRow "total" ((nowNs : Int) - (timer._start_time : Int)) timestamp [])) "stage"
      = Val.vstr "total" := by
    have hctx2 : List.lookup "stage" (timer.record_total_time nowNs timestamp).context
        = none := hctx
    rw [cell_toDfRow _ _ _ hctx2 (by decide) (by decide), hstage_raw]
  have hf : toDfRow (timer.record_total_time nowNs timestamp)
        (timingRow "total" ((nowNs : Int) - (timer._start_time : Int)) timestamp [])
      ∈ ((pdDataFrame (timer.record_total_time nowNs timestamp).to_df).rows.filter
          (fun r => decide (cell r "stage" = Val.vstr "total"))) :=
    List.mem_filter.mpr ⟨hr, by simp [hstage]⟩
  refine ⟨fun conn => rfl, ⟨_, hr, hstage⟩, ?_⟩
  rcases hh : ((pdDataFrame (timer.record_total_time nowNs timestamp).to_df).rows.filter
      (fun r => decide (cell r "stage" = Val.vstr "total"))).head? with _ | r0
  · rw [List.head?_eq_none_iff] at hh
    exact absurd hh (List.ne_nil_of_mem hf)
  · have hne_df : ((pdDataFrame (timer.record_total_time nowNs timestamp).to_df).rows).isEmpty
        = false := by
      simp [pdDataFrame, BenchmarkTimer.to_df, BenchmarkTimer.record_total_time]
    have hsum : mkRunSummary (timer.record_total_time nowNs timestamp) results_json datasets
        = (dictUpdate
            (dictUpdate
              [("run_id", Val.vstr (timer.record_total_time nowNs timestamp).run_id),
               ("experiment_name",
                 Val.vstr (timer.record_total_time nowNs timestamp).experiment_name),
               ("datasets",
                 match datasets with
                 | some (d :: ds) => Val.vstr (jsonListStr (d :: ds))
                 | _ => Val.vnull),
               ("results_json", Val.vstr results_json)]
              (timer.record_total_time nowNs timestamp).context)
            [("total_time_s", cell r0 "time_s"), ("total_time_ms", cell r0 "time_ms")]).map
          (fun kv => (kv.1, serializeForSqlite kv.2)) := by
      rw [mkRunSummary.eq_def]
      dsimp only
      rw [hne_df]
      rw [if_neg (by simp)]
      rw [hh]
    refine ⟨r0, rfl, ?_, ?_⟩
    · rw [hsum, cell, lookup_serialize,
        lookup_dictUpdate_of_some _ _ _ _ (by rw [lookup_cons_dict, if_pos rfl])]
      simp [serializeForSqlite]
    · rw [hsum, cell, lookup_serialize,
        lookup_dictUpdate_of_some _ _ _ (cell r0 "time_ms")
          (by rw [lookup_cons_dict, if_neg (by decide), lookup_cons_dict, if_pos rfl])]
      simp [serializeForSqlite]

/-- C9 witness: the total record and the summary's copied totals at a
concrete timer with one user stage. -/
theorem c9_witness :
    (∃ r ∈ (pdDataFrame (({ experiment_name := "exp", metadata := [], run_id := "r", context := [], timings := [[("stage", Val.vstr "fit")]], _start_time := 40 } : BenchmarkTimer).record_total_time 100 "ts").to_df).rows,
        cell r "stage" = Val.vstr "total")
    ∧ (∃ r0 : Dict,
        ((pdDataFrame (({ experiment_name := "exp", metadata := [], run_id := "r", context := [], timings := [[("stage", Val.vstr "fit")]], _start_time := 40 } : BenchmarkTimer).record_total_time 100 "ts").to_df).rows.filter
            (fun r => decide (cell r "stage" = Val.vstr "total"))).head? = some r0
        ∧ cell (mkRunSummary (({ experiment_name := "exp", metadata := [], run_id := "r", context := [], timings := [[("stage", Val.vstr "fit")]], _start_time := 40 } : BenchmarkTimer).record_total_time 100 "ts") "res" none)
            "total_time_s" = cell r0 "time_s"
        ∧ cell (mkRunSummary (({ experiment_name := "exp", metadata := [], run_id := "r", context := [], timings := [[("stage", Val.vstr "fit")]], _start_time := 40 } : BenchmarkTimer).record_total_time 100 "ts") "res" none)
            "total_time_ms" = cell r0 "time_ms") :=
  (c9_save_appends_total_record
    { experiment_name := "exp", metadata := [], run_id := "r", context := [],
      timings := [[("stage", Val.vstr "fit")]], _start_time := 40 }
    "res" none 100 "ts" rfl).2

end TabArena
